import Mathlib

/-!
Verification of the SSH-tunnel / connection-resolver / query-execution core
of a desktop database client, shallowly embedded in Lean 4.

Rust strings are modelled as `List Char` (`RustStr`).  Byte indices of the
Rust code coincide with character indices on the ASCII inputs exercised
here; `str::to_uppercase` is modelled character-wise (faithful on ASCII).
The process-wide `HashMap` registries are modelled as association lists in
which insertion overwrites (shadowing insert at the front combined with
first-match lookup, and removal deletes every binding of the key), which
is observationally the map semantics of `HashMap`.
Effectful operations (tunnel creation, the SQL count query, the row
stream) are passed in as explicit oracle values.
-/

/-- Rust strings, modelled as lists of characters. -/
abbrev RustStr := List Char

/-- Shorthand turning a Lean string literal into the model type. -/
def str (s : String) : RustStr := s.toList

/-- The Unicode White_Space property, as used by Rust's
`char::is_whitespace` (and hence `str::trim`). -/
def rustIsWhitespace (c : Char) : Bool :=
  c.toNat = 0x09 ∨ c.toNat = 0x0A ∨ c.toNat = 0x0B ∨ c.toNat = 0x0C ∨
  c.toNat = 0x0D ∨ c.toNat = 0x20 ∨ c.toNat = 0x85 ∨ c.toNat = 0xA0 ∨
  c.toNat = 0x1680 ∨ (0x2000 ≤ c.toNat ∧ c.toNat ≤ 0x200A) ∨
  c.toNat = 0x2028 ∨ c.toNat = 0x2029 ∨ c.toNat = 0x202F ∨
  c.toNat = 0x205F ∨ c.toNat = 0x3000

/-- Rust `str::trim_start`. -/
def trimStart (s : RustStr) : RustStr := s.dropWhile rustIsWhitespace

/-- Rust `str::trim_end`. -/
def trimEnd (s : RustStr) : RustStr :=
  (s.reverse.dropWhile rustIsWhitespace).reverse

/-- Rust `str::trim`. -/
def rustTrim (s : RustStr) : RustStr := trimStart (trimEnd s)

/-- Rust `str::trim_end_matches(';')`. -/
def trimEndMatchesSemi (s : RustStr) : RustStr :=
  (s.reverse.dropWhile (fun c => c = ';')).reverse

/-- Rust `str::to_uppercase`, modelled character-wise (faithful on ASCII,
which is all the SQL-keyword searches below depend on). -/
def toUpperAscii (s : RustStr) : RustStr := s.map Char.toUpper

/-- Fuel-driven core of the decimal rendering (the fuel only serves to make
the recursion structural; `natDecimal` always supplies enough). -/
def natDecimalCore : Nat → Nat → List Char
  | 0, _ => []
  | fuel + 1, n =>
    if n < 10 then [Char.ofNat (48 + n)]
    else natDecimalCore fuel (n / 10) ++ [Char.ofNat (48 + n % 10)]

/-- Decimal rendering of a natural number, the `Display` format used by
`format!` on Rust integers. -/
def natDecimal (n : Nat) : List Char := natDecimalCore (n + 1) n

/-- Left inverse of `natDecimal`: read a decimal digit string back. -/
def decodeDecimal (s : List Char) : Nat :=
  s.foldl (fun a c => 10 * a + (c.toNat - 48)) 0

/-- Model of `build_tunnel_key` (src-tauri/src/ssh_tunnel.rs): the string
`ssh_user@ssh_host:ssh_port:remote_host->remote_port`. -/
def build_tunnel_key (ssh_user ssh_host : RustStr) (ssh_port : Nat)
    (remote_host : RustStr) (remote_port : Nat) : RustStr :=
  ssh_user ++ str "@" ++ ssh_host ++ str ":" ++ natDecimal ssh_port ++
    str ":" ++ remote_host ++ str "->" ++ natDecimal remote_port

/-- Model of `is_empty_or_whitespace` (ssh_tunnel.rs):
`s.map(|p| p.trim().is_empty()).unwrap_or(true)`. -/
def is_empty_or_whitespace (s : Option RustStr) : Bool :=
  (s.map (fun p => (rustTrim p).isEmpty)).getD true

/-- Model of `should_use_system_ssh` (ssh_tunnel.rs). -/
def should_use_system_ssh (ssh_password : Option RustStr) : Bool :=
  is_empty_or_whitespace ssh_password

/-- The two tunnel backends of `enum TunnelBackend` (ssh_tunnel.rs). -/
inductive TunnelBackendKind : Type
  | russh : TunnelBackendKind
  | systemSsh : TunnelBackendKind
deriving DecidableEq

/-- The backend dispatch performed by `SshTunnel::new` (ssh_tunnel.rs):
`if use_system_ssh { Self::new_system_ssh(..) } else { Self::new_russh(..) }`
with `use_system_ssh = should_use_system_ssh(ssh_password)`. -/
def sshTunnelNewBackend (ssh_password : Option RustStr) : TunnelBackendKind :=
  if should_use_system_ssh ssh_password then TunnelBackendKind.systemSsh
  else TunnelBackendKind.russh

/-- Model of `struct SshTunnel` (ssh_tunnel.rs): the OS-assigned local
port plus the chosen backend. -/
structure SshTunnel : Type where
  local_port : Nat
  backend : TunnelBackendKind
deriving DecidableEq

/-- Model of `struct ConnectionParams` (src-tauri/src/models.rs). -/
structure ConnectionParams : Type where
  driver : RustStr
  host : Option RustStr
  port : Option Nat
  username : Option RustStr
  password : Option RustStr
  database : RustStr
  ssh_enabled : Option Bool
  ssh_connection_id : Option RustStr
  ssh_host : Option RustStr
  ssh_port : Option Nat
  ssh_user : Option RustStr
  ssh_password : Option RustStr
  ssh_key_file : Option RustStr
  ssh_key_passphrase : Option RustStr
  save_in_keychain : Option Bool
deriving DecidableEq

/-- The process-wide tunnel registry `TUNNELS : Mutex<HashMap<String,
SshTunnel>>` (ssh_tunnel.rs), modelled as an association list. -/
abbrev TunnelRegistry := List (RustStr × SshTunnel)

/-- Host/port rewrite performed by `resolve_connection_params` when a
tunnel is used: host becomes 127.0.0.1, port the tunnel's local port. -/
def setTunnelEndpoint (p : ConnectionParams) (local_port : Nat) :
    ConnectionParams :=
  { p with host := some (str "127.0.0.1"), port := some local_port }

instance {ε α : Type} [DecidableEq ε] [DecidableEq α] :
    DecidableEq (Except ε α) := fun a b =>
  match a, b with
  | Except.error x, Except.error y =>
    if h : x = y then isTrue (h ▸ rfl)
    else isFalse (fun c => h (Except.error.inj c))
  | Except.error _, Except.ok _ => isFalse (fun c => Except.noConfusion c)
  | Except.ok _, Except.error _ => isFalse (fun c => Except.noConfusion c)
  | Except.ok x, Except.ok y =>
    if h : x = y then isTrue (h ▸ rfl)
    else isFalse (fun c => h (Except.ok.inj c))

/-- Outcome of one `resolve_connection_params` call: the returned value,
the registry afterwards, and whether `SshTunnel::new` was invoked. -/
structure ResolveOutcome : Type where
  result : Except RustStr ConnectionParams
  registry : TunnelRegistry
  factoryInvoked : Bool
deriving DecidableEq

/-- Model of `resolve_connection_params` (src-tauri/src/commands.rs).
`newTunnel` is the oracle giving the outcome `SshTunnel::new` would have
on this call (tunnel creation is I/O).  `DEFAULT_MYSQL_PORT = 3306` is the
constant the code uses for `params.port.unwrap_or(..)`. -/
def resolve_connection_params (newTunnel : Except RustStr SshTunnel)
    (params : ConnectionParams) (tunnels : TunnelRegistry) : ResolveOutcome :=
  if !(params.ssh_enabled.getD false) then
    ResolveOutcome.mk (Except.ok params) tunnels false
  else
    match params.ssh_host with
    | none => ResolveOutcome.mk (Except.error (str "Missing SSH Host")) tunnels false
    | some ssh_host =>
      match params.ssh_user with
      | none => ResolveOutcome.mk (Except.error (str "Missing SSH User")) tunnels false
      | some ssh_user =>
        let ssh_port := params.ssh_port.getD 22
        let remote_host := params.host.getD (str "localhost")
        let remote_port := params.port.getD 3306
        let map_key :=
          build_tunnel_key ssh_user ssh_host ssh_port remote_host remote_port
        match List.lookup map_key tunnels with
        | some tunnel =>
          ResolveOutcome.mk (Except.ok (setTunnelEndpoint params tunnel.local_port))
            tunnels false
        | none =>
          match newTunnel with
          | Except.error e => ResolveOutcome.mk (Except.error e) tunnels true
          | Except.ok tunnel =>
            ResolveOutcome.mk
              (Except.ok (setTunnelEndpoint params tunnel.local_port))
              ((map_key, tunnel) :: tunnels) true

/-- The tunnel key the SSH path of `resolve_connection_params` computes
for `p`, or `none` when that path is not taken (SSH disabled or a
validation error). -/
def tunnelKeyOf (p : ConnectionParams) : Option RustStr :=
  if !(p.ssh_enabled.getD false) then none
  else
    match p.ssh_host, p.ssh_user with
    | some h, some u =>
      some (build_tunnel_key u h (p.ssh_port.getD 22)
        (p.host.getD (str "localhost")) (p.port.getD 3306))
    | _, _ => none

/-- A sequence of `resolve_connection_params` calls threading the registry
through; the n-th oracle is the outcome `SshTunnel::new` would have on
the n-th call. -/
def resolveSeq : List (Except RustStr SshTunnel) → List ConnectionParams →
    TunnelRegistry → List ResolveOutcome
  | f :: fs, p :: ps, st =>
    let out := resolve_connection_params f p st
    out :: resolveSeq fs ps out.registry
  | _, _, _ => []

/-- Abort handles are opaque to the registry logic; an abstract token. -/
abbrev AbortHandle := Nat

/-- The `QueryCancellationState.handles : HashMap<String, AbortHandle>`
map (commands.rs), modelled as an association list. -/
abbrev CancelRegistry := List (RustStr × AbortHandle)

/-- Removal of every binding of `id` (the assoc-list rendering of
`HashMap::remove`). -/
def eraseKey (id : RustStr) (st : CancelRegistry) : CancelRegistry :=
  st.filter (fun e => !(e.1 == id))

/-- Model of the handle registration step of `execute_query`
(commands.rs): `handles.insert(connection_id, abort_handle)`, which
overwrites any previous handle for the id. -/
def registerHandle (id : RustStr) (h : AbortHandle) (st : CancelRegistry) :
    CancelRegistry :=
  (id, h) :: eraseKey id st

/-- Outcome of one `cancel_query` call: the command result, the handle
map afterwards, and the handle whose `abort()` was invoked, if any. -/
structure CancelOutcome : Type where
  result : Except RustStr Unit
  registry : CancelRegistry
  aborted : Option AbortHandle
deriving DecidableEq

/-- Model of `cancel_query` (commands.rs): remove the entry for the id
and abort it, else report the no-running-query error. -/
def cancel_query (st : CancelRegistry) (id : RustStr) : CancelOutcome :=
  match List.lookup id st with
  | some h => CancelOutcome.mk (Except.ok ()) (eraseKey id st) (some h)
  | none =>
    CancelOutcome.mk (Except.error (str "No running query found")) st none

/-- Model of the query sanitization step of `execute_query`
(commands.rs): `query.trim().trim_end_matches(';')`. -/
def sanitize_query (query : RustStr) : RustStr :=
  trimEndMatchesSemi (rustTrim query)

/-- The pattern searched for by the ORDER BY splitters. -/
def orderByPat : RustStr := str "ORDER BY"

/-- Rust `str::rfind(pat)`: index of the start of the last occurrence of
`pat`. -/
def rfindSub (s pat : RustStr) : Option Nat :=
  (List.range (s.length + 1)).reverse.find? (fun i => pat.isPrefixOf (s.drop i))

/-- Model of `extract_order_by` (drivers/mysql/mod.rs and
drivers/sqlite.rs; the two copies are identical). -/
def extract_order_by (query : RustStr) : RustStr :=
  match rfindSub (toUpperAscii query) orderByPat with
  | some pos => rustTrim (query.drop pos)
  | none => []

/-- Model of `remove_order_by` (drivers/mysql/mod.rs and
drivers/sqlite.rs; the two copies are identical). -/
def remove_order_by (query : RustStr) : RustStr :=
  match rfindSub (toUpperAscii query) orderByPat with
  | some pos => rustTrim (query.take pos)
  | none => query

/-- Model of `struct Pagination` (models.rs). -/
structure Pagination : Type where
  page : Nat
  page_size : Nat
  total_rows : Nat
deriving DecidableEq

/-- The SELECT check of the two `execute_query` drivers:
`query.trim_start().to_uppercase().starts_with("SELECT")`. -/
def is_select_query (query : RustStr) : Bool :=
  (str "SELECT").isPrefixOf (toUpperAscii (trimStart query))

/-- Wrapping of a `u32` value (Rust release-mode arithmetic). -/
def u32wrap (n : Nat) : Nat := n % 4294967296

/-- The `(page - 1) * l` offset computation on `u32` values (wrapping
subtraction and multiplication). -/
def pageOffset (page l : Nat) : Nat :=
  u32wrap (u32wrap (page + 4294967295) * l)

/-- The row-streaming loop shared by the drivers' `execute_query`: count
the rows kept, and when `manual_limit` is set, stop with `truncated =
true` once that many rows were already kept and another row arrives. -/
def streamCount {ρ : Type} (manual_limit : Option Nat) :
    List ρ → Nat → Nat × Bool
  | [], count => (count, false)
  | _ :: rest, count =>
    match manual_limit with
    | some l =>
      if count ≥ l then (count, true)
      else streamCount manual_limit rest (count + 1)
    | none => streamCount none rest (count + 1)

/-- The observable outcome of a driver `execute_query` that this
development reasons about: the truncation flag, the pagination record,
the SQL text actually executed, and how many streamed rows were kept. -/
structure ExecOutcome : Type where
  truncated : Bool
  pagination : Option Pagination
  final_query : RustStr
  rows_returned : Nat
deriving DecidableEq

/-- Model of the MySQL `execute_query` (drivers/mysql/mod.rs).
`count_oracle` is the `total_rows` the COUNT(*) round trip produced and
`stream` the row stream; both are I/O and supplied as oracles.  On the
pagination path (`is_select && limit.is_some()`) the code sets
`truncated = total_rows > l` and disables the manual limit. -/
def mysql_execute_query {ρ : Type} (query : RustStr) (limit : Option Nat)
    (page : Nat) (count_oracle : Nat) (stream : List ρ) : ExecOutcome :=
  let is_select := is_select_query query
  match limit, is_select with
  | some l, true =>
    let offset := pageOffset page l
    let total_rows := count_oracle
    let pagination := some (Pagination.mk page l total_rows)
    let truncated := decide (total_rows > l)
    let order_by_clause := extract_order_by query
    let final_query :=
      if !order_by_clause.isEmpty then
        str "SELECT * FROM (" ++ remove_order_by query ++
          str ") as data_wrapper " ++ order_by_clause ++ str " LIMIT " ++
          natDecimal l ++ str " OFFSET " ++ natDecimal offset
      else
        str "SELECT * FROM (" ++ query ++ str ") as data_wrapper LIMIT " ++
          natDecimal l ++ str " OFFSET " ++ natDecimal offset
    let out := streamCount (none : Option Nat) stream 0
    ExecOutcome.mk (truncated || out.2) pagination final_query out.1
  | some l, false =>
    let out := streamCount (some l) stream 0
    ExecOutcome.mk out.2 none query out.1
  | none, _ =>
    let out := streamCount (none : Option Nat) stream 0
    ExecOutcome.mk out.2 none query out.1

/-- Model of the SQLite `execute_query` (drivers/sqlite.rs).  Unlike the
MySQL driver, its pagination branch computes `pagination` but leaves the
`truncated` variable (declared after that branch) at `false`; only the
manual-limit streaming path ever sets it. -/
def sqlite_execute_query {ρ : Type} (query : RustStr) (limit : Option Nat)
    (page : Nat) (count_oracle : Nat) (stream : List ρ) : ExecOutcome :=
  let is_select := is_select_query query
  match limit, is_select with
  | some l, true =>
    let offset := pageOffset page l
    let total_rows := count_oracle
    let pagination := some (Pagination.mk page l total_rows)
    let order_by_clause := extract_order_by query
    let final_query :=
      if !order_by_clause.isEmpty then
        str "SELECT * FROM (" ++ remove_order_by query ++ str ") " ++
          order_by_clause ++ str " LIMIT " ++ natDecimal l ++
          str " OFFSET " ++ natDecimal offset
      else
        str "SELECT * FROM (" ++ query ++ str ") LIMIT " ++ natDecimal l ++
          str " OFFSET " ++ natDecimal offset
    let out := streamCount (none : Option Nat) stream 0
    ExecOutcome.mk out.2 pagination final_query out.1
  | some l, false =>
    let out := streamCount (some l) stream 0
    ExecOutcome.mk out.2 none query out.1
  | none, _ =>
    let out := streamCount (none : Option Nat) stream 0
    ExecOutcome.mk out.2 none query out.1

/-- Erasure of all whitespace from a string; two strings are
whitespace-equivalent when their erasures coincide. -/
def stripWs (s : RustStr) : RustStr := s.filter (fun c => !rustIsWhitespace c)

/-- Substring test (`needle` occurs contiguously in `hay`). -/
def containsSub (needle hay : RustStr) : Bool :=
  (List.range (hay.length + 1)).any (fun i => needle.isPrefixOf (hay.drop i))

/-- Sample SSH-enabled MySQL connection (host/port absent, profile fields
inline) used to instantiate the resolver theorems. -/
def sampleSshParams : ConnectionParams :=
  ConnectionParams.mk (str "mysql") none none none none (str "db")
    (some true) none (some (str "h")) none (some (str "u")) none none none none

/-- Sample SSH-enabled PostgreSQL connection with an absent database
port. -/
def pgSshParams : ConnectionParams :=
  ConnectionParams.mk (str "postgres") none none none none (str "db")
    (some true) none (some (str "h")) none (some (str "u")) none none none none

/-- Sample connection with SSH disabled. -/
def plainParams : ConnectionParams :=
  ConnectionParams.mk (str "mysql") (some (str "dbhost")) (some 3307) none none
    (str "db") (some false) none none none none none none none none

/-- Sample SSH-enabled connection missing the SSH host. -/
def noHostParams : ConnectionParams :=
  ConnectionParams.mk (str "mysql") none none none none (str "db")
    (some true) none none none (some (str "u")) none none none none

/-- Sample SSH-enabled connection missing the SSH user. -/
def noUserParams : ConnectionParams :=
  ConnectionParams.mk (str "mysql") none none none none (str "db")
    (some true) none (some (str "h")) none none none none none none

/-- Sample tunnels returned by the creation oracle in witnesses. -/
def tun1 : SshTunnel := SshTunnel.mk 5000 TunnelBackendKind.russh

/-- Second sample tunnel with a different local port. -/
def tun2 : SshTunnel := SshTunnel.mk 6000 TunnelBackendKind.russh

/-! Helper lemmas. -/

theorem digit_toNat (d : Nat) (h : d < 10) :
    (Char.ofNat (48 + d)).toNat = 48 + d := by
  interval_cases d <;> decide

theorem decodeDecimal_append_digit (a : List Char) (c : Char) :
    decodeDecimal (a ++ [c]) = 10 * decodeDecimal a + (c.toNat - 48) := by
  unfold decodeDecimal
  rw [List.foldl_append]
  rfl

theorem decode_natDecimalCore (fuel : Nat) :
    ∀ n, n < fuel → decodeDecimal (natDecimalCore fuel n) = n := by
  induction fuel with
  | zero => intro n h; omega
  | succ fuel ih =>
    intro n h
    unfold natDecimalCore
    by_cases h10 : n < 10
    · rw [if_pos h10]
      show 10 * 0 + ((Char.ofNat (48 + n)).toNat - 48) = n
      rw [digit_toNat n h10]
      omega
    · rw [if_neg h10, decodeDecimal_append_digit,
        ih (n / 10) (by omega),
        digit_toNat (n % 10) (Nat.mod_lt n (by omega))]
      omega

theorem natDecimal_injective {m n : Nat} (h : natDecimal m = natDecimal n) :
    m = n := by
  have hm := decode_natDecimalCore (m + 1) m (by omega)
  have hn := decode_natDecimalCore (n + 1) n (by omega)
  unfold natDecimal at h
  rw [h, hn] at hm
  omega

theorem dropWhile_append_all {p : Char → Bool} {x : List Char}
    (y : List Char) (h : ∀ c ∈ x, p c = true) :
    (x ++ y).dropWhile p = y.dropWhile p := by
  induction x with
  | nil => rfl
  | cons c t ih =>
    rw [List.cons_append, List.dropWhile_cons_of_pos (h c (by simp))]
    exact ih (fun c hc => h c (by simp [hc]))

theorem stripWs_dropWhile (s : List Char) :
    stripWs (s.dropWhile rustIsWhitespace) = stripWs s := by
  conv_rhs => rw [← List.takeWhile_append_dropWhile rustIsWhitespace s]
  unfold stripWs
  rw [List.filter_append]
  have hnil : (s.takeWhile rustIsWhitespace).filter
      (fun c => !rustIsWhitespace c) = [] := by
    rw [List.filter_eq_nil_iff]
    intro a ha
    simp [List.mem_takeWhile_imp ha]
  rw [hnil, List.nil_append]

theorem stripWs_reverse (s : List Char) :
    stripWs s.reverse = (stripWs s).reverse :=
  List.filter_reverse _ s

theorem stripWs_rustTrim (s : RustStr) : stripWs (rustTrim s) = stripWs s := by
  unfold rustTrim trimStart trimEnd
  rw [stripWs_dropWhile, stripWs_reverse, stripWs_dropWhile, stripWs_reverse,
    List.reverse_reverse]

theorem stripWs_append (a b : RustStr) :
    stripWs (a ++ b) = stripWs a ++ stripWs b :=
  List.filter_append a b

theorem dropWhile_eq_self_of_length {p : Char → Bool} {l : List Char}
    (h : (l.dropWhile p).length = l.length) : l.dropWhile p = l := by
  have hsplit := List.takeWhile_append_dropWhile p l
  have hlen := congrArg List.length hsplit
  rw [List.length_append] at hlen
  have htk : l.takeWhile p = [] :=
    List.eq_nil_of_length_eq_zero (by omega)
  rw [htk, List.nil_append] at hsplit
  exact hsplit

theorem trimEnd_eq_self_of_trim {q : RustStr} (h : rustTrim q = q) :
    trimEnd q = q := by
  have h1 : (trimStart (trimEnd q)).length ≤ (trimEnd q).length :=
    (List.dropWhile_sublist _).length_le
  have h2 : (q.reverse.dropWhile rustIsWhitespace).length ≤ q.length := by
    have := (List.dropWhile_sublist (l := q.reverse) rustIsWhitespace).length_le
    simpa using this
  have h3 : (trimEnd q).length = (q.reverse.dropWhile rustIsWhitespace).length := by
    rw [trimEnd, List.length_reverse]
  have hq : (trimStart (trimEnd q)).length = q.length := by
    rw [rustTrim] at h
    rw [h]
  have hlen : (q.reverse.dropWhile rustIsWhitespace).length = q.reverse.length := by
    rw [List.length_reverse]
    omega
  rw [trimEnd, dropWhile_eq_self_of_length hlen, List.reverse_reverse]

theorem trimStart_eq_self_of_trim {q : RustStr} (h : rustTrim q = q) :
    trimStart q = q := by
  have he := trimEnd_eq_self_of_trim h
  rw [rustTrim, he] at h
  exact h

theorem head_not_of_dropWhile_eq_self {p : Char → Bool} {c : Char}
    {l : List Char} (h : (c :: l).dropWhile p = c :: l) : p c = false := by
  by_cases hc : p c = true
  · rw [List.dropWhile_cons_of_pos hc] at h
    have hle : (l.dropWhile p).length ≤ l.length :=
      (List.dropWhile_sublist _).length_le
    have := congrArg List.length h
    simp at this
    omega
  · simpa using hc

theorem trimStart_append_semis {q semis : RustStr}
    (hq : trimStart q = q) (hs : ∀ c ∈ semis, c = ';') :
    trimStart (q ++ semis) = q ++ semis := by
  cases q with
  | nil =>
    rw [List.nil_append]
    cases semis with
    | nil => rfl
    | cons c t =>
      have hc : c = ';' := hs c (by simp)
      rw [trimStart, List.dropWhile_cons_of_neg (by rw [hc]; decide)]
  | cons c q' =>
    have hc : rustIsWhitespace c = false := head_not_of_dropWhile_eq_self hq
    rw [List.cons_append, trimStart,
      List.dropWhile_cons_of_neg (by rw [hc]; simp), ← List.cons_append]

theorem trimEnd_append_ws {a w : RustStr}
    (hw : ∀ c ∈ w, rustIsWhitespace c = true) :
    trimEnd (a ++ w) = trimEnd a := by
  rw [trimEnd, trimEnd, List.reverse_append,
    dropWhile_append_all a.reverse (fun c hc => hw c (List.mem_reverse.mp hc))]

theorem trimEnd_append_semis {q semis : RustStr}
    (hq : trimEnd q = q) (hs : ∀ c ∈ semis, c = ';') :
    trimEnd (q ++ semis) = q ++ semis := by
  cases hrev : semis.reverse with
  | nil =>
    have : semis = [] := by
      have := congrArg List.reverse hrev
      simpa using this
    rw [this, List.append_nil]
    exact hq
  | cons d tail =>
    have hd : d = ';' := hs d (by
      have : d ∈ semis.reverse := by rw [hrev]; simp
      exact List.mem_reverse.mp this)
    rw [trimEnd, List.reverse_append, hrev, List.cons_append,
      List.dropWhile_cons_of_neg (by rw [hd]; decide), ← List.cons_append,
      ← hrev, ← List.reverse_append, List.reverse_reverse]

theorem trimEndSemi_append {q semis : RustStr} (hs : ∀ c ∈ semis, c = ';') :
    trimEndMatchesSemi (q ++ semis) = trimEndMatchesSemi q := by
  rw [trimEndMatchesSemi, trimEndMatchesSemi, List.reverse_append,
    dropWhile_append_all q.reverse
      (fun c hc => by simp [hs c (List.mem_reverse.mp hc)])]

theorem rustTrim_eq_nil_iff (s : RustStr) :
    rustTrim s = [] ↔ ∀ c ∈ s, rustIsWhitespace c = true := by
  rw [rustTrim, trimStart, trimEnd, List.dropWhile_eq_nil_iff]
  constructor
  · intro h c hc
    have hsplit := List.takeWhile_append_dropWhile rustIsWhitespace s.reverse
    have hc' : c ∈ s.reverse := List.mem_reverse.mpr hc
    rw [← hsplit] at hc'
    rcases List.mem_append.mp hc' with h1 | h1
    · exact List.mem_takeWhile_imp h1
    · exact h c (List.mem_reverse.mpr h1)
  · intro h c hc
    have h1 : c ∈ s.reverse.dropWhile rustIsWhitespace := List.mem_reverse.mp hc
    exact h c (List.mem_reverse.mp ((List.dropWhile_sublist _).subset h1))

theorem eraseKey_cons (id : RustStr) (e : RustStr × AbortHandle)
    (t : CancelRegistry) :
    eraseKey id (e :: t) =
      if e.1 = id then eraseKey id t else e :: eraseKey id t := by
  by_cases h : e.1 = id
  · simp [eraseKey, List.filter_cons, h]
  · simp [eraseKey, List.filter_cons, h]

theorem lookup_eraseKey_self (id : RustStr) (st : CancelRegistry) :
    List.lookup id (eraseKey id st) = none := by
  induction st with
  | nil => rfl
  | cons e t ih =>
    rw [eraseKey_cons]
    by_cases h : e.1 = id
    · rw [if_pos h]
      exact ih
    · rw [if_neg h]
      obtain ⟨k, v⟩ := e
      have hne : (id == k) = false := by
        simp only [] at h
        simp [beq_eq_false_iff_ne]
        exact fun hh => h hh.symm
      simp only [List.lookup, hne]
      exact ih

theorem eraseKey_idem (id : RustStr) (st : CancelRegistry) :
    eraseKey id (eraseKey id st) = eraseKey id st := by
  induction st with
  | nil => rfl
  | cons e t ih =>
    by_cases h : e.1 = id
    · rw [eraseKey_cons, if_pos h, ih]
    · rw [eraseKey_cons, if_neg h, eraseKey_cons, if_neg h, ih]

theorem tunnelKeyOf_eq_some {p : ConnectionParams} {k : RustStr}
    (h : tunnelKeyOf p = some k) :
    p.ssh_enabled.getD false = true ∧
      ∃ sh su, p.ssh_host = some sh ∧ p.ssh_user = some su ∧
        k = build_tunnel_key su sh (p.ssh_port.getD 22)
          (p.host.getD (str "localhost")) (p.port.getD 3306) := by
  unfold tunnelKeyOf at h
  by_cases hen : p.ssh_enabled.getD false = true
  · refine ⟨hen, ?_⟩
    rw [hen] at h
    simp only [Bool.not_true, Bool.false_eq_true, if_false] at h
    cases hh : p.ssh_host with
    | none => rw [hh] at h; simp at h
    | some sh =>
      cases hu : p.ssh_user with
      | none => rw [hh, hu] at h; simp at h
      | some su =>
        rw [hh, hu] at h
        simp only [Option.some.injEq] at h
        exact ⟨sh, su, rfl, rfl, h.symm⟩
  · rw [Bool.not_eq_true] at hen
    rw [hen] at h
    simp at h

theorem resolve_hit {f : Except RustStr SshTunnel} {p : ConnectionParams}
    {st : TunnelRegistry} {k : RustStr} {t : SshTunnel}
    (hk : tunnelKeyOf p = some k) (hl : List.lookup k st = some t) :
    resolve_connection_params f p st =
      ResolveOutcome.mk (Except.ok (setTunnelEndpoint p t.local_port)) st false := by
  obtain ⟨hen, sh, su, hh, hu, hkey⟩ := tunnelKeyOf_eq_some hk
  subst hkey
  unfold resolve_connection_params
  rw [hen, hh, hu]
  simp only [Bool.not_true, Bool.false_eq_true, if_false, hl]

theorem resolve_create {p : ConnectionParams} {st : TunnelRegistry}
    {k : RustStr} {t : SshTunnel}
    (hk : tunnelKeyOf p = some k) (hmiss : List.lookup k st = none) :
    resolve_connection_params (Except.ok t) p st =
      ResolveOutcome.mk (Except.ok (setTunnelEndpoint p t.local_port))
        ((k, t) :: st) true := by
  obtain ⟨hen, sh, su, hh, hu, hkey⟩ := tunnelKeyOf_eq_some hk
  subst hkey
  unfold resolve_connection_params
  rw [hen, hh, hu]
  simp only [Bool.not_true, Bool.false_eq_true, if_false, hmiss]

/-! Claim theorems. -/

/-- C6: backend selection is decided solely by the password:
`should_use_system_ssh` is true for `None` and for empty or
whitespace-only strings (external-process backend) and false for any
password containing a non-whitespace character (native russh backend),
and `SshTunnel::new` dispatches to the corresponding backend. -/
theorem should_use_system_ssh_spec :
    should_use_system_ssh none = true ∧
    (∀ s : RustStr, (∀ c ∈ s, rustIsWhitespace c = true) →
      should_use_system_ssh (some s) = true) ∧
    (∀ s : RustStr, (∃ c ∈ s, rustIsWhitespace c = false) →
      should_use_system_ssh (some s) = false) ∧
    (∀ pw : Option RustStr,
      sshTunnelNewBackend pw = TunnelBackendKind.systemSsh ↔
        should_use_system_ssh pw = true) := by
  refine ⟨rfl, ?_, ?_, ?_⟩
  · intro s h
    show (rustTrim s).isEmpty = true
    rw [List.isEmpty_iff]
    exact (rustTrim_eq_nil_iff s).mpr h
  · rintro s ⟨c, hc, hcw⟩
    show (rustTrim s).isEmpty = false
    cases hemp : (rustTrim s).isEmpty
    · rfl
    · rw [List.isEmpty_iff] at hemp
      rw [(rustTrim_eq_nil_iff s).mp hemp c hc] at hcw
      cases hcw
  · intro pw
    unfold sshTunnelNewBackend
    by_cases h : should_use_system_ssh pw = true
    · rw [if_pos h]
      simp [h]
    · rw [if_neg h]
      simp [h]

/-- Witness for C6 at the spec's concrete inputs. -/
theorem should_use_system_ssh_spec_witness :
    should_use_system_ssh (some (str "   ")) = true ∧
    should_use_system_ssh (some (str "secret")) = false :=
  ⟨should_use_system_ssh_spec.2.1 (str "   ") (by decide),
   should_use_system_ssh_spec.2.2.1 (str "secret") ⟨'s', by decide, by decide⟩⟩

/-- C7: `build_tunnel_key` produces exactly the format
`ssh_user@ssh_host:ssh_port:remote_host->remote_port`
(`key("u","h",22,"r",80) = "u@h:22:r->80"`), it is deterministic (a pure
function of its five arguments), and with any four fields fixed, distinct
values of the remaining field yield distinct keys. -/
theorem build_tunnel_key_spec :
    build_tunnel_key (str "u") (str "h") 22 (str "r") 80 = str "u@h:22:r->80" ∧
    (∀ u u' h p r rp, u ≠ u' →
      build_tunnel_key u h p r rp ≠ build_tunnel_key u' h p r rp) ∧
    (∀ u h h' p r rp, h ≠ h' →
      build_tunnel_key u h p r rp ≠ build_tunnel_key u h' p r rp) ∧
    (∀ u h p p' r rp, p ≠ p' →
      build_tunnel_key u h p r rp ≠ build_tunnel_key u h p' r rp) ∧
    (∀ u h p r r' rp, r ≠ r' →
      build_tunnel_key u h p r rp ≠ build_tunnel_key u h p r' rp) ∧
    (∀ u h p r rp rp', rp ≠ rp' →
      build_tunnel_key u h p r rp ≠ build_tunnel_key u h p r rp') := by
  refine ⟨by decide, ?_, ?_, ?_, ?_, ?_⟩
  · intro u u' h p r rp hne heq
    simp only [build_tunnel_key, List.append_assoc] at heq
    exact hne (List.append_cancel_right heq)
  · intro u h h' p r rp hne heq
    simp only [build_tunnel_key, List.append_assoc] at heq
    have h1 := List.append_cancel_left heq
    have h2 := List.append_cancel_left h1
    exact hne (List.append_cancel_right h2)
  · intro u h p p' r rp hne heq
    simp only [build_tunnel_key, List.append_assoc] at heq
    have h1 := List.append_cancel_left heq
    have h2 := List.append_cancel_left h1
    have h3 := List.append_cancel_left h2
    have h4 := List.append_cancel_left h3
    exact hne (natDecimal_injective (List.append_cancel_right h4))
  · intro u h p r r' rp hne heq
    simp only [build_tunnel_key, List.append_assoc] at heq
    have h1 := List.append_cancel_left heq
    have h2 := List.append_cancel_left h1
    have h3 := List.append_cancel_left h2
    have h4 := List.append_cancel_left h3
    have h5 := List.append_cancel_left h4
    have h6 := List.append_cancel_left h5
    exact hne (List.append_cancel_right h6)
  · intro u h p r rp rp' hne heq
    simp only [build_tunnel_key, List.append_assoc] at heq
    have h1 := List.append_cancel_left heq
    have h2 := List.append_cancel_left h1
    have h3 := List.append_cancel_left h2
    have h4 := List.append_cancel_left h3
    have h5 := List.append_cancel_left h4
    have h6 := List.append_cancel_left h5
    have h7 := List.append_cancel_left h6
    have h8 := List.append_cancel_left h7
    exact hne (natDecimal_injective h8)

/-- Witness for C7: two keys differing only in the SSH port are
distinct. -/
theorem build_tunnel_key_spec_witness :
    build_tunnel_key (str "u") (str "h") 22 (str "r") 80 ≠
      build_tunnel_key (str "u") (str "h") 2222 (str "r") 80 :=
  build_tunnel_key_spec.2.2.2.1 (str "u") (str "h") 22 2222 (str "r") 80
    (by decide)

/-- C8: cancelling after a handle was registered under an id aborts that
handle, removes the entry and returns success; a second cancel for the
same id finds no entry and returns the no-running-query error rather
than success. -/
theorem cancel_query_spec (st : CancelRegistry) (id : RustStr)
    (h : AbortHandle) :
    cancel_query (registerHandle id h st) id =
      CancelOutcome.mk (Except.ok ()) (eraseKey id st) (some h) ∧
    cancel_query (eraseKey id st) id =
      CancelOutcome.mk (Except.error (str "No running query found"))
        (eraseKey id st) none := by
  constructor
  · unfold cancel_query registerHandle
    simp only [List.lookup, beq_self_eq_true]
    rw [eraseKey_cons, if_pos rfl, eraseKey_idem]
  · unfold cancel_query
    rw [lookup_eraseKey_self]

/-- Witness for C8 with id "X" and handle 7 in an empty registry. -/
theorem cancel_query_spec_witness :
    cancel_query (registerHandle (str "X") 7 []) (str "X") =
      CancelOutcome.mk (Except.ok ()) (eraseKey (str "X") []) (some 7) ∧
    cancel_query (eraseKey (str "X") []) (str "X") =
      CancelOutcome.mk (Except.error (str "No running query found"))
        (eraseKey (str "X") []) none :=
  cancel_query_spec [] (str "X") 7

/-- C9: with SSH disabled, `resolve_connection_params` returns its input
unchanged; with SSH enabled and no SSH host it fails with an error
containing "SSH Host"; with a host but no SSH user it fails with an
error naming the SSH user field. -/
theorem resolve_validation_spec (f : Except RustStr SshTunnel)
    (p : ConnectionParams) (st : TunnelRegistry) :
    (p.ssh_enabled.getD false = false →
      resolve_connection_params f p st =
        ResolveOutcome.mk (Except.ok p) st false) ∧
    (p.ssh_enabled.getD false = true → p.ssh_host = none →
      resolve_connection_params f p st =
        ResolveOutcome.mk (Except.error (str "Missing SSH Host")) st false ∧
      containsSub (str "SSH Host") (str "Missing SSH Host") = true) ∧
    (p.ssh_enabled.getD false = true → p.ssh_host ≠ none → p.ssh_user = none →
      resolve_connection_params f p st =
        ResolveOutcome.mk (Except.error (str "Missing SSH User")) st false ∧
      containsSub (str "SSH User") (str "Missing SSH User") = true) := by
  refine ⟨?_, ?_, ?_⟩
  · intro h
    unfold resolve_connection_params
    rw [h]
    simp
  · intro he hh
    unfold resolve_connection_params
    rw [he, hh]
    exact ⟨by simp, by decide⟩
  · intro he hh hu
    cases hhost : p.ssh_host with
    | none => exact absurd hhost hh
    | some sh =>
      unfold resolve_connection_params
      rw [he, hhost, hu]
      exact ⟨by simp, by decide⟩

/-- Witness for C9 at three concrete connections: SSH disabled, missing
SSH host, missing SSH user. -/
theorem resolve_validation_spec_witness :
    resolve_connection_params (Except.ok tun1) plainParams [] =
      ResolveOutcome.mk (Except.ok plainParams) [] false ∧
    resolve_connection_params (Except.ok tun1) noHostParams [] =
      ResolveOutcome.mk (Except.error (str "Missing SSH Host")) [] false ∧
    resolve_connection_params (Except.ok tun1) noUserParams [] =
      ResolveOutcome.mk (Except.error (str "Missing SSH User")) [] false :=
  ⟨(resolve_validation_spec (Except.ok tun1) plainParams []).1 (by decide),
   ((resolve_validation_spec (Except.ok tun1) noHostParams []).2.1
      (by decide) (by decide)).1,
   ((resolve_validation_spec (Except.ok tun1) noUserParams []).2.2
      (by decide) (by decide) (by decide)).1⟩

/-- C2: when the tunnel key is not yet registered and tunnel creation
fails, `resolve_connection_params` returns that error and leaves the
registry unchanged (no entry inserted for the computed key), although
the factory was invoked. -/
theorem resolve_tunnel_failure_atomic {p : ConnectionParams}
    {st : TunnelRegistry} {k e : RustStr}
    (hk : tunnelKeyOf p = some k) (hmiss : List.lookup k st = none) :
    resolve_connection_params (Except.error e) p st =
      ResolveOutcome.mk (Except.error e) st true := by
  obtain ⟨hen, sh, su, hh, hu, hkey⟩ := tunnelKeyOf_eq_some hk
  subst hkey
  unfold resolve_connection_params
  rw [hen, hh, hu]
  simp only [Bool.not_true, Bool.false_eq_true, if_false, hmiss]

/-- Witness for C2: a failing creation against an empty registry. -/
theorem resolve_tunnel_failure_atomic_witness :
    resolve_connection_params (Except.error (str "Connection refused"))
        sampleSshParams [] =
      ResolveOutcome.mk (Except.error (str "Connection refused")) [] true :=
  @resolve_tunnel_failure_atomic sampleSshParams []
    (str "u@h:22:localhost->3306") (str "Connection refused")
    (by decide) (by decide)

/-- C4 (code bug exhibit): for a PostgreSQL connection with an absent
database port, the resolver still defaults the remote port to 3306
(`DEFAULT_MYSQL_PORT`) in the `(remote_host, remote_port)` pair and the
tunnel key, not to the dialect's 5432; the SSH port does default to 22. -/
theorem resolve_remote_port_ignores_dialect :
    pgSshParams.driver = str "postgres" ∧
    pgSshParams.port = none ∧
    pgSshParams.ssh_port = none ∧
    tunnelKeyOf pgSshParams = some (str "u@h:22:localhost->3306") ∧
    (resolve_connection_params (Except.ok tun1) pgSshParams []).registry =
      [(str "u@h:22:localhost->3306", tun1)] := by
  decide

/-- Once the registry holds the key, every further same-key resolve
returns that tunnel's port, does not invoke the factory, and leaves the
registry untouched. -/
theorem resolveSeq_hit {k : RustStr} {t : SshTunnel} {st : TunnelRegistry}
    (hs : List.lookup k st = some t) :
    ∀ (fs : List (Except RustStr SshTunnel)) (ps : List ConnectionParams),
      (∀ p ∈ ps, tunnelKeyOf p = some k) →
      ∀ out ∈ resolveSeq fs ps st,
        (∃ q, out.result = Except.ok q ∧ q.port = some t.local_port) ∧
          out.factoryInvoked = false := by
  intro fs
  induction fs with
  | nil =>
    intro ps hps out hout
    simp [resolveSeq] at hout
  | cons f fs ih =>
    intro ps hps out hout
    cases ps with
    | nil => simp [resolveSeq] at hout
    | cons p ps' =>
      rw [resolveSeq] at hout
      have hp := hps p (by simp)
      rw [resolve_hit hp hs] at hout
      rcases List.mem_cons.mp hout with h1 | h1
      · subst h1
        exact ⟨⟨setTunnelEndpoint p t.local_port, rfl, rfl⟩, rfl⟩
      · exact ih ps' (fun p2 hp2 => hps p2 (by simp [hp2])) out (by simpa using h1)

/-- C1: for a sequence of resolve calls whose parameters all produce the
same tunnel key, once the first call succeeds returning local port `L`,
every later call returns `L` again and never invokes the tunnel factory
(`SshTunnel::new`): the registry keeps at most one live tunnel per key. -/
theorem tunnel_registry_single_instance
    (f0 : Except RustStr SshTunnel) (p0 : ConnectionParams)
    (fs : List (Except RustStr SshTunnel)) (ps : List ConnectionParams)
    (st : TunnelRegistry) (k : RustStr) (q0 : ConnectionParams) (L : Nat)
    (hk0 : tunnelKeyOf p0 = some k)
    (hks : ∀ p ∈ ps, tunnelKeyOf p = some k)
    (h0 : (resolve_connection_params f0 p0 st).result = Except.ok q0)
    (hL : q0.port = some L) :
    ∀ out ∈ resolveSeq fs ps (resolve_connection_params f0 p0 st).registry,
      (∃ q, out.result = Except.ok q ∧ q.port = some L) ∧
        out.factoryInvoked = false := by
  cases hl : List.lookup k st with
  | some t =>
    rw [resolve_hit hk0 hl] at h0 ⊢
    have h0' : setTunnelEndpoint p0 t.local_port = q0 := Except.ok.inj h0
    have hlp : t.local_port = L := by
      rw [← h0'] at hL
      exact Option.some.inj hL
    intro out hout
    have hmain := resolveSeq_hit hl fs ps hks out hout
    rw [hlp] at hmain
    exact hmain
  | none =>
    cases f0 with
    | error e =>
      rw [resolve_tunnel_failure_atomic hk0 hl] at h0
      exact absurd h0 (fun c => Except.noConfusion c)
    | ok t =>
      rw [resolve_create hk0 hl] at h0 ⊢
      have h0' : setTunnelEndpoint p0 t.local_port = q0 := Except.ok.inj h0
      have hlp : t.local_port = L := by
        rw [← h0'] at hL
        exact Option.some.inj hL
      have hl2 : List.lookup k ((k, t) :: st) = some t := by
        simp [List.lookup]
      intro out hout
      have hmain := resolveSeq_hit hl2 fs ps hks out hout
      rw [hlp] at hmain
      exact hmain

/-- Witness for C1: two same-key resolves; the second returns port 5000
of the first tunnel and does not invoke the factory, even though its
oracle would have produced a different tunnel (port 6000). -/
theorem tunnel_registry_single_instance_witness :
    (∃ q, (resolve_connection_params (Except.ok tun2) sampleSshParams
        (resolve_connection_params (Except.ok tun1) sampleSshParams
          []).registry).result = Except.ok q ∧ q.port = some 5000) ∧
    (resolve_connection_params (Except.ok tun2) sampleSshParams
        (resolve_connection_params (Except.ok tun1) sampleSshParams
          []).registry).factoryInvoked = false :=
  tunnel_registry_single_instance (Except.ok tun1) sampleSshParams
    [Except.ok tun2] [sampleSshParams] [] (str "u@h:22:localhost->3306")
    (setTunnelEndpoint sampleSshParams 5000) 5000
    (by decide) (by decide) (by decide) (by decide)
    (resolve_connection_params (Except.ok tun2) sampleSshParams
      (resolve_connection_params (Except.ok tun1) sampleSshParams []).registry)
    (by decide)

/-- C3 (code bug exhibit): at the spec's example (`total_rows = 120`,
`limit = 50`) on the pagination-rewrite path, the MySQL `execute_query`
reports `truncated = true` (it sets `truncated = total_rows > l`) while
the SQLite `execute_query` returns `truncated = false` despite computing
the same pagination record, because its pagination branch never sets the
flag from the counted total. -/
theorem truncated_flag_mysql_true_sqlite_false :
    is_select_query (str "SELECT * FROM t") = true ∧
    (mysql_execute_query (str "SELECT * FROM t") (some 50) 1 120
      (List.replicate 50 0)).truncated = true ∧
    (mysql_execute_query (str "SELECT * FROM t") (some 50) 1 120
      (List.replicate 50 0)).pagination = some (Pagination.mk 1 50 120) ∧
    (sqlite_execute_query (str "SELECT * FROM t") (some 50) 1 120
      (List.replicate 50 0)).truncated = false ∧
    (sqlite_execute_query (str "SELECT * FROM t") (some 50) 1 120
      (List.replicate 50 0)).pagination = some (Pagination.mk 1 50 120) := by
  decide

/-- C5: splitting a query at the last case-insensitive ORDER BY is
whitespace-lossless — `remove_order_by q ++ extract_order_by q` equals
`q` after erasing whitespace (for every query, in particular those with
a single trailing ORDER BY) — and for a query with no (case-insensitive)
ORDER BY occurrence `extract_order_by` is empty and `remove_order_by` is
the identity; the spec's example splits as stated. -/
theorem order_by_split_spec :
    (∀ q : RustStr,
      stripWs (remove_order_by q ++ extract_order_by q) = stripWs q) ∧
    (∀ q : RustStr, rfindSub (toUpperAscii q) orderByPat = none →
      extract_order_by q = [] ∧ remove_order_by q = q) ∧
    extract_order_by (str "SELECT * FROM t WHERE x=1 ORDER BY y DESC") =
      str "ORDER BY y DESC" ∧
    remove_order_by (str "SELECT * FROM t WHERE x=1 ORDER BY y DESC") =
      str "SELECT * FROM t WHERE x=1" := by
  refine ⟨?_, ?_, by decide, by decide⟩
  · intro q
    unfold remove_order_by extract_order_by
    cases h : rfindSub (toUpperAscii q) orderByPat with
    | none =>
      show stripWs (q ++ []) = stripWs q
      rw [List.append_nil]
    | some pos =>
      show stripWs (rustTrim (List.take pos q) ++ rustTrim (List.drop pos q)) =
        stripWs q
      rw [stripWs_append, stripWs_rustTrim, stripWs_rustTrim,
        ← stripWs_append, List.take_append_drop]
  · intro q h
    unfold extract_order_by remove_order_by
    rw [h]
    exact ⟨rfl, rfl⟩

/-- Witness for C5 at a query without an ORDER BY clause. -/
theorem order_by_split_spec_witness :
    extract_order_by (str "SELECT 1") = [] ∧
    remove_order_by (str "SELECT 1") = str "SELECT 1" :=
  order_by_split_spec.2.1 (str "SELECT 1") (by decide)

/-- C10 counterexample: `"; ;"` consists solely of semicolons and
whitespace, yet appending it to `"SELECT 1"` does not sanitize to the
trimmed query — `trim().trim_end_matches(';')` is a single pass, so the
inner semicolon survives as `"SELECT 1; "`. -/
theorem sanitize_query_claim_counterexample :
    (∀ c ∈ str "; ;", c = ';' ∨ rustIsWhitespace c = true) ∧
    sanitize_query (str "SELECT 1" ++ str "; ;") ≠
      sanitize_query (rustTrim (str "SELECT 1")) := by
  decide

/-- C10 amended: the sanitizer trims surrounding whitespace and then
strips trailing semicolons, one pass each in that order; hence for a
trimmed query `q`, appending any number of semicolons followed by any
trailing whitespace leaves the sanitized query unchanged. -/
theorem sanitize_query_amended (q semis w : RustStr)
    (hq : rustTrim q = q) (hsemis : ∀ c ∈ semis, c = ';')
    (hw : ∀ c ∈ w, rustIsWhitespace c = true) :
    sanitize_query (q ++ semis ++ w) = sanitize_query q := by
  have hte : trimEnd q = q := trimEnd_eq_self_of_trim hq
  have hts : trimStart q = q := trimStart_eq_self_of_trim hq
  unfold sanitize_query rustTrim
  rw [trimEnd_append_ws hw, trimEnd_append_semis hte hsemis,
    trimStart_append_semis hts hsemis, trimEndSemi_append hsemis, hte, hts]

/-- Witness for C10's amended statement. -/
theorem sanitize_query_amended_witness :
    sanitize_query (str "SELECT 1" ++ str ";;" ++ str "  ") =
      sanitize_query (str "SELECT 1") :=
  sanitize_query_amended (str "SELECT 1") (str ";;") (str "  ")
    (by decide) (by decide) (by decide)
